import Mathlib

/-!
Verification of the scheduling core of the `pusher` service (`src/main.py`).

The embedding is shallow: Python dictionaries become association lists
(`List (String × _)`), the MySQL `tasks` table becomes a `List DBRow`, and the
handful of endpoint handlers become pure Lean functions over an explicit
`SysState`.  The outbound HTTP call is abstracted into an `HttpOutcome`
argument (the response / transport fault the call produced); the remainder of
`send_push_notification` — classification and status writes — is embedded
faithfully.  `datetime` values are modelled by `DT`: an absolute instant plus
an optional timezone offset, which is all the validation code inspects.
-/

namespace Pusher

/-- A `datetime` value: absolute instant (for comparison between aware values)
plus optional timezone info (`tzinfo is None` ↔ `tzinfo = none`). -/
structure DT where
  tzinfo : Option Int
  instant : Int
  deriving DecidableEq, Repr

/-- Rendering of a datetime as used for the `schedule_time` string placed in
the in-memory snapshot (`isoformat` in the source, abstracted injectively). -/
def DT.isoformat (d : DT) : String :=
  toString d.instant ++ (match d.tzinfo with
    | none => ""
    | some o => "+" ++ toString o)

/-- One row of the MySQL `tasks` table: columns exactly as in `init_db`
(`job_id, bark_key, schedule_time, content, status, created_at`). -/
structure DBRow where
  job_id : String
  bark_key : String
  schedule_time : DT
  content : String
  status : String
  created_at : Int
  deriving DecidableEq, Repr

/-- One pending APScheduler job, as created by `scheduler.add_job` in
`schedule_task`: id, run date and the callback arguments. -/
structure PendingJob where
  job_id : String
  run_date : DT
  bark_key : String
  content : String
  deriving DecidableEq, Repr

/-- A `task_store` value: the Python dict `{"job_id": …, "schedule_time": …,
"content": …, "status": …}`, kept as a field-name/value association list so
that presence and absence of keys is expressible. -/
abbrev TaskFields := List (String × String)

/-- The whole mutable state of the service: APScheduler's pending jobs, the
in-memory `task_store` dict, and the MySQL `tasks` table. -/
structure SysState where
  pending : List PendingJob
  task_store : List (String × TaskFields)
  db : List DBRow
  deriving DecidableEq, Repr

/-- Python dict assignment `d[k] = v`: replace the binding if the key is
present, append it otherwise. -/
def dictSet (d : List (String × String)) (k v : String) : List (String × String) :=
  if d.any (fun p => p.1 = k) then
    d.map (fun p => if p.1 = k then (p.1, v) else p)
  else
    d ++ [(k, v)]

/-- `task_store[job_id] = task_info` at the dict-of-dicts level. -/
def storeSet (ts : List (String × TaskFields)) (job_id : String) (info : TaskFields) :
    List (String × TaskFields) :=
  if ts.any (fun p => p.1 = job_id) then
    ts.map (fun p => if p.1 = job_id then (p.1, info) else p)
  else
    ts ++ [(job_id, info)]

/-- `if job_id in task_store: task_store[job_id]['status'] = status` — the
guarded in-memory status write used by `send_push_notification`. -/
def storeSetStatus (ts : List (String × TaskFields)) (job_id status : String) :
    List (String × TaskFields) :=
  ts.map (fun p => if p.1 = job_id then (p.1, dictSet p.2 "status" status) else p)

/-- `save_task_to_db`: `INSERT … ON DUPLICATE KEY UPDATE` keyed on the
`job_id` primary key.  On conflict the update clause rewrites `bark_key`,
`schedule_time`, `content` and `status` but — exactly as in the SQL — not
`created_at`; a fresh insert stamps `created_at` with the current time
(`nowC`, the `datetime.now()` taken inside the function). -/
def save_task_to_db (db : List DBRow) (job_id bark_key : String) (schedule_time : DT)
    (content status : String) (nowC : Int) : List DBRow :=
  if db.any (fun r => r.job_id = job_id) then
    db.map (fun r =>
      if r.job_id = job_id then
        { r with bark_key := bark_key, schedule_time := schedule_time,
                 content := content, status := status }
      else r)
  else
    db ++ [⟨job_id, bark_key, schedule_time, content, status, nowC⟩]

/-- `update_task_status_in_db`: select the row's `bark_key, schedule_time,
content`; if a row exists, re-`save` it with the new status.  The `**extra`
keyword arguments (the response body / error text passed by the dispatch
callback) are accepted and — exactly as in the source — never used. -/
def update_task_status_in_db (db : List DBRow) (job_id status : String)
    (extra : List (String × String)) (nowC : Int) : List DBRow :=
  match db.find? (fun r => r.job_id = job_id) with
  | some row => save_task_to_db db job_id row.bark_key row.schedule_time row.content status nowC
  | none => db

/-- `delete_task_from_db`: `DELETE FROM tasks WHERE job_id = :job_id` — total,
removes matching rows, reports nothing when no row matches. -/
def delete_task_from_db (db : List DBRow) (job_id : String) : List DBRow :=
  db.filter (fun r => r.job_id ≠ job_id)

/-- Modelled from the spec (§4.1), not from `src/main.py`: the Durable-Store
`delete` contract as the specification words it — `delete(job_id)` "signals
NotFound" when the record is absent.  Used only to compare the specified
contract with the code's `delete_task_from_db`. -/
def deleteSpec (db : List DBRow) (job_id : String) : Except Unit (List DBRow) :=
  if db.any (fun r => r.job_id = job_id) then
    Except.ok (db.filter (fun r => r.job_id ≠ job_id))
  else
    Except.error ()

/-- The errors an endpoint can raise (`HTTPException`): status code plus the
pieces of the `detail` payload the claims mention.  A 400 carries the
validation message together with the server's current time and the received
time, as built in `schedule_task`. -/
inductive ApiError where
  | badRequest (message : String) (current_time received_time : DT)
  | notFound (detail : String)
  | serverError (detail : String)
  deriving DecidableEq, Repr

/-- Request body of `POST /schedule`. -/
structure ScheduleRequest where
  schedule_time : DT
  content : String
  bark_key : String
  deriving DecidableEq, Repr

/-- Response body of a successful `POST /schedule`. -/
structure TaskResponse where
  job_id : String
  schedule_time : DT
  content : String
  status : String
  deriving DecidableEq, Repr

/-- Outcome of the outbound `GET` issued by `send_push_notification`: either
a response (status code and body text) or a transport fault (the stringified
exception). -/
inductive HttpOutcome where
  | response (status_code : Nat) (body : String)
  | fault (msg : String)
  deriving DecidableEq, Repr

/-- The dispatch callback after the outbound call returns
(`send_push_notification`, lines 242–257): `status_code == 200` → mark
`completed` (in-memory guarded write, then DB update with the body as unused
extra); any other code → `failed` with `"HTTP <code>"` as unused extra; any
exception → `failed` with the stringified fault as unused extra. -/
def send_push_notification (st : SysState) (job_id : String) (outcome : HttpOutcome)
    (nowC : Int) : SysState :=
  match outcome with
  | .response code body =>
    if code = 200 then
      { st with
        task_store := storeSetStatus st.task_store job_id "completed",
        db := update_task_status_in_db st.db job_id "completed" [("response", body)] nowC }
    else
      { st with
        task_store := storeSetStatus st.task_store job_id "failed",
        db := update_task_status_in_db st.db job_id "failed"
                [("error", "HTTP " ++ toString code)] nowC }
  | .fault msg =>
      { st with
        task_store := storeSetStatus st.task_store job_id "failed",
        db := update_task_status_in_db st.db job_id "failed" [("error", msg)] nowC }

/-- `POST /schedule` (`schedule_task`).  `now` is `datetime.now().astimezone()`
(always timezone-aware); `uuid` is the fresh `str(uuid.uuid4())` draw;
`storeOk` abstracts whether the `save_task_to_db` write succeeds (a failing
write raises, landing in the generic `except` → 500).  Returns the state the
process is left in together with the HTTP result.  Faithful ordering: validate
time, truncate the uuid to 8 characters, `add_job` (fails on a duplicate
*pending* id because `replace_existing=False`; the raised error is caught by
the blanket `except` → 500 with the state unchanged), then the in-memory
write, then the DB write. -/
def schedule_task (st : SysState) (now : DT) (req : ScheduleRequest) (uuid : String)
    (storeOk : Bool) : SysState × Except ApiError TaskResponse :=
  if req.schedule_time.tzinfo = none then
    (st, Except.error (ApiError.badRequest "执行时间必须带时区信息" now req.schedule_time))
  else if req.schedule_time.instant ≤ now.instant then
    (st, Except.error (ApiError.badRequest "执行时间必须是未来时间" now req.schedule_time))
  else
    let job_id := uuid.take 8
    if st.pending.any (fun j => j.job_id = job_id) then
      (st, Except.error (ApiError.serverError "设置定时任务失败: ConflictingIdError"))
    else
      let st1 : SysState :=
        { st with pending := st.pending ++ [⟨job_id, req.schedule_time, req.bark_key, req.content⟩] }
      let task_info : TaskFields :=
        [("job_id", job_id), ("schedule_time", req.schedule_time.isoformat),
         ("content", req.content), ("status", "scheduled")]
      let st2 : SysState := { st1 with task_store := storeSet st1.task_store job_id task_info }
      if storeOk then
        ({ st2 with db := save_task_to_db st2.db job_id req.bark_key req.schedule_time
                            req.content "scheduled" now.instant },
         Except.ok ⟨job_id, req.schedule_time, req.content, "scheduled"⟩)
      else
        (st2, Except.error (ApiError.serverError "设置定时任务失败: StoreFailure"))

/-- Dictionary lookup `d[k]` on a field dict. -/
def fieldGet (d : List (String × String)) (k : String) : Option String :=
  (d.find? (fun p => p.1 = k)).map Prod.snd

/-- Dictionary lookup `task_store[job_id]`. -/
def storeLookup (ts : List (String × TaskFields)) (job_id : String) : Option TaskFields :=
  (ts.find? (fun p => p.1 = job_id)).map Prod.snd

/-- The status column of the (first) `tasks` row with the given `job_id`. -/
def dbStatus (db : List DBRow) (job_id : String) : Option String :=
  (db.find? (fun r => r.job_id = job_id)).map DBRow.status

/-- How `send_push_notification` classifies an outbound outcome into the
terminal status it writes: `completed` exactly when the response code is 200,
`failed` for every other code and for every transport fault. -/
def dispatchStatus : HttpOutcome → String
  | .response code _ => if code = 200 then "completed" else "failed"
  | .fault _ => "failed"

/-- `GET /tasks/{job_id}` (`get_task`): the snapshot from `task_store`, or 404. -/
def get_task (st : SysState) (job_id : String) : Except ApiError TaskFields :=
  match storeLookup st.task_store job_id with
  | some info => Except.ok info
  | none => Except.error (ApiError.notFound "任务不存在")

/-- `DELETE /tasks/{job_id}` (`cancel_task`): 404 when the id is not in
`task_store`; otherwise `scheduler.remove_job` — which raises `JobLookupError`
when the job is no longer pending, caught and turned into a 404
"not found or already executed" *before* the in-memory and DB deletions run —
then `del task_store[job_id]`, then `delete_task_from_db`. -/
def cancel_task (st : SysState) (job_id : String) : SysState × Except ApiError String :=
  if st.task_store.any (fun p => p.1 = job_id) then
    if st.pending.any (fun j => j.job_id = job_id) then
      ({ pending := st.pending.filter (fun j => j.job_id ≠ job_id),
         task_store := st.task_store.filter (fun p => p.1 ≠ job_id),
         db := delete_task_from_db st.db job_id },
       Except.ok job_id)
    else
      (st, Except.error (ApiError.notFound "任务不存在或已执行"))
  else
    (st, Except.error (ApiError.notFound "任务不存在"))

/-! ### Trigger Engine model (spec §4.3)

The Trigger Engine of the running system is APScheduler, a library that is not
part of `src/`.  Its firing semantics are therefore modelled from the spec:
"when `now >= fire_time` for a pending entry, the engine removes it from the
pending set and invokes the Dispatch Callback exactly once". -/

/-- Modelled from the spec: the Trigger Engine's observable state — the
pending `(job_id, fire_time)` set and the log of dispatch-callback
invocations made so far. -/
structure Engine where
  pending : List (String × Int)
  fired : List String
  deriving DecidableEq, Repr

/-- Modelled from the spec: one evaluation step of the Trigger Engine.  A
`fire` step picks a pending entry whose `fire_time` has elapsed, removes it
from the pending set, and invokes the Dispatch Callback for it (appends it to
the invocation log) — removal and invocation form one atomic step, matching
"removes it from the pending set and invokes the Dispatch Callback". -/
inductive EngineStep : Engine → Engine → Prop where
  | fire (now : Int) (e : Engine) (j : String) (t : Int)
      (hmem : (j, t) ∈ e.pending) (hdue : t ≤ now) :
      EngineStep e ⟨e.pending.filter (fun p => p.1 ≠ j), j :: e.fired⟩

/-- Modelled from the spec: any interleaving of evaluation-cycle steps
(concurrent cycles are arbitrary sequences of atomic fire steps). -/
inductive EngineReaches : Engine → Engine → Prop where
  | refl (e : Engine) : EngineReaches e e
  | step {e₁ e₂ e₃ : Engine} : EngineReaches e₁ e₂ → EngineStep e₂ e₃ → EngineReaches e₁ e₃

/-! ### Helper lemmas -/

theorem find?_map_update (db : List DBRow) (j : String) (upd : DBRow → DBRow)
    (hupd : ∀ r, (upd r).job_id = r.job_id) :
    (db.map (fun r => if r.job_id = j then upd r else r)).find? (fun r => r.job_id = j) =
      (db.find? (fun r => r.job_id = j)).map upd := by
  induction db with
  | nil => rfl
  | cons r db ih =>
    by_cases hr : r.job_id = j
    · simp [List.find?_cons, hr, hupd]
    · simp [List.find?_cons, hr, hupd, ih]

theorem find?_save_self (db : List DBRow) (j k : String) (t : DT) (c s : String) (n : Int) :
    (save_task_to_db db j k t c s n).find? (fun r => r.job_id = j) =
      some (match db.find? (fun r => r.job_id = j) with
            | some r => { r with bark_key := k, schedule_time := t, content := c, status := s }
            | none => ⟨j, k, t, c, s, n⟩) := by
  unfold save_task_to_db
  by_cases hany : db.any (fun r => r.job_id = j)
  · rw [if_pos hany]
    refine Eq.trans (find?_map_update db j
      (fun r => { r with bark_key := k, schedule_time := t, content := c, status := s })
      (fun r => rfl)) ?_
    rw [List.any_eq_true] at hany
    obtain ⟨r, hr, hrj⟩ := hany
    cases hfd : db.find? (fun x => x.job_id = j) with
    | none =>
      rw [List.find?_eq_none] at hfd
      exact absurd (by simpa using hrj) (by simpa using hfd r hr)
    | some r₀ => simp
  · rw [if_neg hany]
    have hnone : db.find? (fun r => r.job_id = j) = none := by
      rw [List.find?_eq_none]
      intro r hr
      simp only [List.any_eq_true, not_exists] at hany
      simpa using fun h => (hany r) ⟨hr, by simpa using h⟩
    rw [List.find?_append, hnone]
    simp

theorem countP_map_update (db : List DBRow) (j : String) (upd : DBRow → DBRow)
    (hupd : ∀ r, (upd r).job_id = r.job_id) :
    (db.map (fun r => if r.job_id = j then upd r else r)).countP
        (fun r => decide (r.job_id = j)) =
      db.countP (fun r => decide (r.job_id = j)) := by
  induction db with
  | nil => rfl
  | cons r db ih =>
    by_cases hr : r.job_id = j
    · simp [List.countP_cons, hr, hupd, ih]
    · simp [List.countP_cons, hr, hupd, ih]

theorem countP_save_self (db : List DBRow) (j k : String) (t : DT) (c s : String) (n : Int) :
    (save_task_to_db db j k t c s n).countP (fun r => decide (r.job_id = j)) =
      if db.any (fun r => r.job_id = j) then db.countP (fun r => decide (r.job_id = j))
      else db.countP (fun r => decide (r.job_id = j)) + 1 := by
  unfold save_task_to_db
  by_cases hany : db.any (fun r => r.job_id = j)
  · rw [if_pos hany, if_pos hany]
    exact countP_map_update db j _ (fun r => rfl)
  · rw [if_neg hany, if_neg hany]
    simp [List.countP_append]

theorem save_any_self (db : List DBRow) (j k : String) (t : DT) (c s : String) (n : Int) :
    (save_task_to_db db j k t c s n).any (fun r => r.job_id = j) = true := by
  have h := find?_save_self db j k t c s n
  rw [List.any_eq_true]
  have hp := List.find?_some h
  exact ⟨_, List.mem_of_find?_eq_some h, hp⟩

theorem storeLookup_storeSetStatus (ts : List (String × TaskFields)) (j s : String) :
    storeLookup (storeSetStatus ts j s) j =
      (storeLookup ts j).map (fun f => dictSet f "status" s) := by
  induction ts with
  | nil => rfl
  | cons p ts ih =>
    by_cases hp : p.1 = j
    · simp [storeLookup, storeSetStatus, List.find?_cons, hp]
    · simp only [storeLookup, storeSetStatus, List.map_cons, if_neg hp] at ih ⊢
      simp only [List.find?_cons, hp, decide_eq_true_eq, if_neg hp, decide_False]
      simpa [storeLookup, storeSetStatus] using ih

theorem storeSetStatus_absent (ts : List (String × TaskFields)) (j s : String)
    (h : ∀ p ∈ ts, p.1 ≠ j) : storeSetStatus ts j s = ts := by
  induction ts with
  | nil => rfl
  | cons p ts ih =>
    have hp : p.1 ≠ j := h p (List.mem_cons_self p ts)
    simp only [storeSetStatus, List.map_cons, if_neg hp]
    have := ih (fun q hq => h q (List.mem_cons_of_mem p hq))
    simpa [storeSetStatus] using this

theorem update_absent (db : List DBRow) (j status : String) (extra : List (String × String))
    (n : Int) (h : ∀ r ∈ db, r.job_id ≠ j) :
    update_task_status_in_db db j status extra n = db := by
  unfold update_task_status_in_db
  have hnone : db.find? (fun r => r.job_id = j) = none := by
    rw [List.find?_eq_none]
    intro r hr
    simpa using h r hr
  simp [hnone]

theorem update_found (db : List DBRow) (j s : String) (extra : List (String × String))
    (n : Int) (row : DBRow) (hdb : db.find? (fun r => r.job_id = j) = some row) :
    update_task_status_in_db db j s extra n =
      save_task_to_db db j row.bark_key row.schedule_time row.content s n := by
  unfold update_task_status_in_db
  rw [hdb]

theorem send_push_eq (st : SysState) (job_id : String) (o : HttpOutcome) (nowC : Int) :
    send_push_notification st job_id o nowC =
      { st with task_store := storeSetStatus st.task_store job_id (dispatchStatus o),
                db := update_task_status_in_db st.db job_id (dispatchStatus o) [] nowC } := by
  cases o with
  | response code body =>
    by_cases hc : code = 200 <;>
      simp [send_push_notification, dispatchStatus, update_task_status_in_db, hc]
  | fault msg =>
    simp [send_push_notification, dispatchStatus, update_task_status_in_db]

theorem find?_map_dictfix (d : List (String × String)) (k v k₂ : String) (h : k₂ ≠ k) :
    (d.map (fun p => if p.1 = k then (p.1, v) else p)).find? (fun p => p.1 = k₂) =
      d.find? (fun p => p.1 = k₂) := by
  induction d with
  | nil => rfl
  | cons p d ih =>
    have hk : ¬ k = k₂ := fun e => h e.symm
    by_cases hp : p.1 = k
    · have hpk : ¬ p.1 = k₂ := fun e => h (e.symm.trans hp)
      simp [List.find?_cons, hp, hpk, hk, ih]
    · by_cases hpk : p.1 = k₂
      · simp [List.find?_cons, hp, hpk, h, hk]
      · simp [List.find?_cons, hp, hpk, ih]

theorem fieldGet_dictSet_ne (d : List (String × String)) (k v k₂ : String) (h : k₂ ≠ k) :
    fieldGet (dictSet d k v) k₂ = fieldGet d k₂ := by
  unfold fieldGet dictSet
  by_cases hany : d.any (fun p => p.1 = k)
  · rw [if_pos hany, find?_map_dictfix d k v k₂ h]
  · rw [if_neg hany, List.find?_append]
    cases hfd : d.find? (fun p => p.1 = k₂) with
    | some q => simp
    | none =>
      have hk : ¬ k = k₂ := fun e => h e.symm
      simp [hk]

theorem dispatch_writes_status (st : SysState) (job_id : String) (o : HttpOutcome)
    (nowC : Int) (info : TaskFields) (row : DBRow)
    (hidx : storeLookup st.task_store job_id = some info)
    (hdb : st.db.find? (fun r => r.job_id = job_id) = some row) :
    storeLookup (send_push_notification st job_id o nowC).task_store job_id =
      some (dictSet info "status" (dispatchStatus o)) ∧
    dbStatus (send_push_notification st job_id o nowC).db job_id = some (dispatchStatus o) := by
  rw [send_push_eq]
  constructor
  · show storeLookup (storeSetStatus st.task_store job_id (dispatchStatus o)) job_id = _
    rw [storeLookup_storeSetStatus, hidx]
    rfl
  · show dbStatus (update_task_status_in_db st.db job_id (dispatchStatus o) [] nowC) job_id = _
    rw [update_found st.db job_id (dispatchStatus o) [] nowC row hdb]
    unfold dbStatus
    rw [find?_save_self, hdb]
    rfl

/-- A concrete state holding one scheduled job `j1`, used to exercise the
dispatch callback on explicit inputs. -/
def exampleState : SysState :=
  ⟨[], [("j1", [("job_id", "j1"), ("schedule_time", "50+0"), ("content", "ping"),
               ("status", "scheduled")])],
   [⟨"j1", "key", ⟨some 0, 50⟩, "ping", "scheduled", 10⟩]⟩

/-! ### Claim theorems -/

/-- C3: a submit whose timestamp lacks timezone information, or whose
timestamp is not strictly after the current time, fails with an InvalidTime
client error carrying both the server's current time and the received time,
and creates no job: the pending set, the in-memory index and the durable
store are all left exactly as they were. -/
theorem C3_submit_invalid_time_rejected (st : SysState) (now : DT) (req : ScheduleRequest)
    (uuid : String) (storeOk : Bool)
    (h : req.schedule_time.tzinfo = none ∨ req.schedule_time.instant ≤ now.instant) :
    (schedule_task st now req uuid storeOk).1 = st ∧
    ∃ msg, (schedule_task st now req uuid storeOk).2 =
      Except.error (ApiError.badRequest msg now req.schedule_time) := by
  unfold schedule_task
  rcases h with h | h
  · simp [h]
  · by_cases htz : req.schedule_time.tzinfo = none
    · simp [htz]
    · simp [htz, h]

/-- Witness for C3: a concrete naive (no-timezone) timestamp is rejected with
the state untouched. -/
theorem C3_submit_invalid_time_rejected_witness :
    ((⟨none, 20⟩ : DT).tzinfo = none ∨ (⟨none, 20⟩ : DT).instant ≤ (⟨some 0, 10⟩ : DT).instant) ∧
    ((schedule_task ⟨[], [], []⟩ ⟨some 0, 10⟩ ⟨⟨none, 20⟩, "ping", "key"⟩ "u" true).1 = ⟨[], [], []⟩ ∧
      ∃ msg, (schedule_task ⟨[], [], []⟩ ⟨some 0, 10⟩ ⟨⟨none, 20⟩, "ping", "key"⟩ "u" true).2 =
        Except.error (ApiError.badRequest msg ⟨some 0, 10⟩ ⟨none, 20⟩)) :=
  ⟨Or.inl rfl, C3_submit_invalid_time_rejected ⟨[], [], []⟩ ⟨some 0, 10⟩
    ⟨⟨none, 20⟩, "ping", "key"⟩ "u" true (Or.inl rfl)⟩

/-- C6 counterexample: deleting an absent `job_id` is a silent no-op for the
store — `delete_task_from_db` returns the store unchanged and its type is
total, so nothing is signalled — whereas the spec-worded contract
(`deleteSpec`) signals NotFound on the same input. -/
theorem C6_store_delete_counterexample :
    delete_task_from_db [⟨"a", "k", ⟨some 0, 5⟩, "c", "scheduled", 0⟩] "x" =
      [⟨"a", "k", ⟨some 0, 5⟩, "c", "scheduled", 0⟩] ∧
    deleteSpec [⟨"a", "k", ⟨some 0, 5⟩, "c", "scheduled", 0⟩] "x" = Except.error () :=
  ⟨rfl, rfl⟩

/-- C6 amended: the store delete on an absent `job_id` is an error-free
no-op — the store is returned unchanged and no NotFound is signalled; the
NotFound answer for cancelling an unknown job comes from the in-memory index
check in `cancel_task`, never from the store delete. -/
theorem C6_store_delete_absent_noop (db : List DBRow) (job_id : String)
    (h : ∀ r ∈ db, r.job_id ≠ job_id) : delete_task_from_db db job_id = db := by
  unfold delete_task_from_db
  exact List.filter_eq_self.mpr (fun r hr => by simpa using h r hr)

/-- Witness for C6's amended theorem on a concrete store. -/
theorem C6_store_delete_absent_noop_witness :
    (∀ r ∈ ([⟨"a", "k", ⟨some 0, 5⟩, "c", "scheduled", 0⟩] : List DBRow), r.job_id ≠ "x") ∧
    delete_task_from_db [⟨"a", "k", ⟨some 0, 5⟩, "c", "scheduled", 0⟩] "x" =
      [⟨"a", "k", ⟨some 0, 5⟩, "c", "scheduled", 0⟩] :=
  ⟨by decide, C6_store_delete_absent_noop _ "x" (by decide)⟩

/-- C7: `cancel` fails NotFound when the id is absent from the in-memory
index; when it is in the index but no longer pending in the trigger engine
(already fired) it fails with the distinct "not found or already executed"
NotFound and leaves the whole state — index and store included — unchanged;
only when the pending entry is removed are the index entry and the store
record deleted. -/
theorem C7_cancel_semantics (st : SysState) (job_id : String) :
    (st.task_store.any (fun p => p.1 = job_id) = false →
      cancel_task st job_id = (st, Except.error (ApiError.notFound "任务不存在"))) ∧
    (st.task_store.any (fun p => p.1 = job_id) = true →
     st.pending.any (fun j => j.job_id = job_id) = false →
      cancel_task st job_id = (st, Except.error (ApiError.notFound "任务不存在或已执行"))) ∧
    (st.task_store.any (fun p => p.1 = job_id) = true →
     st.pending.any (fun j => j.job_id = job_id) = true →
      (cancel_task st job_id).2 = Except.ok job_id ∧
      (cancel_task st job_id).1.task_store = st.task_store.filter (fun p => p.1 ≠ job_id) ∧
      (cancel_task st job_id).1.db = delete_task_from_db st.db job_id ∧
      (cancel_task st job_id).1.pending = st.pending.filter (fun j => j.job_id ≠ job_id)) := by
  unfold cancel_task
  exact ⟨fun h1 => by simp [h1], fun h1 h2 => by simp [h1, h2],
    fun h1 h2 => by simp [h1, h2]⟩

/-- Witness for C7: the three branches at concrete states — unknown id,
id known but already fired (state untouched), and a pending id cancelled. -/
theorem C7_cancel_semantics_witness :
    cancel_task ⟨[], [], []⟩ "x" = (⟨[], [], []⟩, Except.error (ApiError.notFound "任务不存在")) ∧
    cancel_task ⟨[], [("j", [("status", "completed")])],
        [⟨"j", "k", ⟨some 0, 5⟩, "c", "completed", 0⟩]⟩ "j" =
      (⟨[], [("j", [("status", "completed")])],
        [⟨"j", "k", ⟨some 0, 5⟩, "c", "completed", 0⟩]⟩,
       Except.error (ApiError.notFound "任务不存在或已执行")) ∧
    (cancel_task ⟨[⟨"j", ⟨some 0, 9⟩, "k", "c"⟩], [("j", [("status", "scheduled")])],
        [⟨"j", "k", ⟨some 0, 9⟩, "c", "scheduled", 0⟩]⟩ "j").2 = Except.ok "j" :=
  ⟨(C7_cancel_semantics ⟨[], [], []⟩ "x").1 (by decide),
   (C7_cancel_semantics _ "j").2.1 (by decide) (by decide),
   ((C7_cancel_semantics ⟨[⟨"j", ⟨some 0, 9⟩, "k", "c"⟩], [("j", [("status", "scheduled")])],
      [⟨"j", "k", ⟨some 0, 9⟩, "c", "scheduled", 0⟩]⟩ "j").2.2 (by decide) (by decide)).1⟩

/-- C10: when `job_id` has no index entry and no store row, the dispatch
callback's status update is a complete no-op on both stores — the in-memory
write is membership-guarded and the DB update does nothing when the row is
absent — so a dispatch racing a completed cancellation never recreates or
mutates the deleted record. -/
theorem C10_dispatch_noop_when_absent (st : SysState) (job_id : String) (o : HttpOutcome)
    (nowC : Int)
    (hidx : ∀ p ∈ st.task_store, p.1 ≠ job_id)
    (hdb : ∀ r ∈ st.db, r.job_id ≠ job_id) :
    send_push_notification st job_id o nowC = st := by
  have hts : ∀ s, storeSetStatus st.task_store job_id s = st.task_store :=
    fun s => storeSetStatus_absent _ _ _ hidx
  have hdbu : ∀ s extra, update_task_status_in_db st.db job_id s extra nowC = st.db :=
    fun s extra => update_absent _ _ _ _ _ hdb
  cases o with
  | response code body =>
    by_cases hc : code = 200 <;> simp [send_push_notification, hc, hts, hdbu]
  | fault msg => simp [send_push_notification, hts, hdbu]

/-- Witness for C10: dispatching for a deleted id next to an unrelated job
leaves the state identical. -/
theorem C10_dispatch_noop_when_absent_witness :
    (∀ p ∈ ([("a", [("status", "scheduled")])] : List (String × TaskFields)), p.1 ≠ "ghost") ∧
    (∀ r ∈ ([⟨"a", "k", ⟨some 0, 5⟩, "c", "scheduled", 0⟩] : List DBRow), r.job_id ≠ "ghost") ∧
    send_push_notification ⟨[], [("a", [("status", "scheduled")])],
        [⟨"a", "k", ⟨some 0, 5⟩, "c", "scheduled", 0⟩]⟩ "ghost"
        (HttpOutcome.response 200 "ok") 7 =
      ⟨[], [("a", [("status", "scheduled")])],
        [⟨"a", "k", ⟨some 0, 5⟩, "c", "scheduled", 0⟩]⟩ :=
  ⟨by decide, by decide,
   C10_dispatch_noop_when_absent _ "ghost" (HttpOutcome.response 200 "ok") 7
     (by decide) (by decide)⟩

/-- C1 counterexample: fire job `j1` with an outbound HTTP 200 whose body is
`"ok"`. Afterwards `get` shows `status = "completed"` but no `outcome_detail`
at all — the snapshot has no such key — and the entire resulting state is
identical to the one produced by a different response body: the body text is
discarded, not recorded, contradicting "get shows outcome_detail ok". -/
theorem C1_outcome_detail_counterexample :
    (get_task (send_push_notification exampleState "j1" (HttpOutcome.response 200 "ok") 60)
        "j1").map (fun f => fieldGet f "status") = Except.ok (some "completed") ∧
    (get_task (send_push_notification exampleState "j1" (HttpOutcome.response 200 "ok") 60)
        "j1").map (fun f => fieldGet f "outcome_detail") = Except.ok none ∧
    send_push_notification exampleState "j1" (HttpOutcome.response 200 "ok") 60 =
      send_push_notification exampleState "j1" (HttpOutcome.response 200 "another body") 60 :=
  ⟨rfl, rfl, rfl⟩

/-- C1 amended: the dispatch callback records only the terminal status in the
in-memory index and the durable store before returning; the outcome detail
(response body, "HTTP code" text, stringified fault) is passed as the unused
extra arguments and discarded — the snapshot gains no outcome_detail key, the
store row keeps only the status, and the final state depends solely on the
classification of the outcome, never on its detail text. -/
theorem C1_dispatch_records_status_only (st : SysState) (job_id : String) (o : HttpOutcome)
    (nowC : Int) (info : TaskFields) (row : DBRow)
    (hidx : storeLookup st.task_store job_id = some info)
    (hdb : st.db.find? (fun r => r.job_id = job_id) = some row) :
    storeLookup (send_push_notification st job_id o nowC).task_store job_id =
      some (dictSet info "status" (dispatchStatus o)) ∧
    dbStatus (send_push_notification st job_id o nowC).db job_id = some (dispatchStatus o) ∧
    (∀ o₂, dispatchStatus o₂ = dispatchStatus o →
      send_push_notification st job_id o₂ nowC = send_push_notification st job_id o nowC) ∧
    (fieldGet info "outcome_detail" = none →
      (storeLookup (send_push_notification st job_id o nowC).task_store job_id).bind
        (fun f => fieldGet f "outcome_detail") = none) := by
  obtain ⟨h1, h2⟩ := dispatch_writes_status st job_id o nowC info row hidx hdb
  refine ⟨h1, h2, ?_, ?_⟩
  · intro o₂ ho
    rw [send_push_eq, send_push_eq, ho]
  · intro hnone
    rw [h1]
    show fieldGet (dictSet info "status" (dispatchStatus o)) "outcome_detail" = none
    rw [fieldGet_dictSet_ne info "status" (dispatchStatus o) "outcome_detail" (by decide)]
    exact hnone

/-- Witness for C1's amended theorem on the concrete example state. -/
theorem C1_dispatch_records_status_only_witness :
    storeLookup (send_push_notification exampleState "j1"
        (HttpOutcome.response 200 "ok") 60).task_store "j1" =
      some (dictSet [("job_id", "j1"), ("schedule_time", "50+0"), ("content", "ping"),
        ("status", "scheduled")] "status" (dispatchStatus (HttpOutcome.response 200 "ok"))) ∧
    dbStatus (send_push_notification exampleState "j1"
        (HttpOutcome.response 200 "ok") 60).db "j1" =
      some (dispatchStatus (HttpOutcome.response 200 "ok")) :=
  ⟨(C1_dispatch_records_status_only exampleState "j1" (HttpOutcome.response 200 "ok") 60
      [("job_id", "j1"), ("schedule_time", "50+0"), ("content", "ping"), ("status", "scheduled")]
      ⟨"j1", "key", ⟨some 0, 50⟩, "ping", "scheduled", 10⟩ rfl rfl).1,
   (C1_dispatch_records_status_only exampleState "j1" (HttpOutcome.response 200 "ok") 60
      [("job_id", "j1"), ("schedule_time", "50+0"), ("content", "ping"), ("status", "scheduled")]
      ⟨"j1", "key", ⟨some 0, 50⟩, "ping", "scheduled", 10⟩ rfl rfl).2.1⟩

/-- C5 counterexample: an outbound response with the 2xx code 201 is
classified as a failure — the callback compares the code to 200 exactly, so
the job ends `failed` in both index and store, contradicting "2xx = success". -/
theorem C5_non200_2xx_counterexample :
    dispatchStatus (HttpOutcome.response 201 "created") = "failed" ∧
    (get_task (send_push_notification exampleState "j1" (HttpOutcome.response 201 "created") 60)
        "j1").map (fun f => fieldGet f "status") = Except.ok (some "failed") ∧
    dbStatus (send_push_notification exampleState "j1"
        (HttpOutcome.response 201 "created") 60).db "j1" = some "failed" :=
  ⟨rfl, rfl, rfl⟩

/-- C5 amended: the callback classifies by equality with 200, not by the 2xx
range: a response with code 200 marks the job completed, and a response with
any other code — other 2xx codes included — marks it failed, in both the
in-memory index and the durable store. -/
theorem C5_dispatch_classification_by_200 (st : SysState) (job_id : String) (code : Nat)
    (body : String) (nowC : Int) (info : TaskFields) (row : DBRow)
    (hidx : storeLookup st.task_store job_id = some info)
    (hdb : st.db.find? (fun r => r.job_id = job_id) = some row) :
    storeLookup (send_push_notification st job_id (HttpOutcome.response code body)
        nowC).task_store job_id =
      some (dictSet info "status" (if code = 200 then "completed" else "failed")) ∧
    dbStatus (send_push_notification st job_id (HttpOutcome.response code body) nowC).db job_id =
      some (if code = 200 then "completed" else "failed") :=
  dispatch_writes_status st job_id (HttpOutcome.response code body) nowC info row hidx hdb

/-- Witness for C5's amended theorem: a 204 response on the example state. -/
theorem C5_dispatch_classification_by_200_witness :
    storeLookup (send_push_notification exampleState "j1"
        (HttpOutcome.response 204 "") 60).task_store "j1" =
      some (dictSet [("job_id", "j1"), ("schedule_time", "50+0"), ("content", "ping"),
        ("status", "scheduled")] "status" (if 204 = 200 then "completed" else "failed")) ∧
    dbStatus (send_push_notification exampleState "j1"
        (HttpOutcome.response 204 "") 60).db "j1" =
      some (if 204 = 200 then "completed" else "failed") :=
  C5_dispatch_classification_by_200 exampleState "j1" 204 "" 60
    [("job_id", "j1"), ("schedule_time", "50+0"), ("content", "ping"), ("status", "scheduled")]
    ⟨"j1", "key", ⟨some 0, 50⟩, "ping", "scheduled", 10⟩ rfl rfl

/-- C4 counterexample: a store-write failure during a valid submission fails
the request (500) yet leaves partial state behind — the trigger engine's
pending set and the in-memory index both hold the new job while the durable
store has no record of it, contradicting "no partial state is left behind". -/
theorem C4_submit_partial_state_counterexample :
    (schedule_task ⟨[], [], []⟩ ⟨some 0, 10⟩ ⟨⟨some 0, 20⟩, "ping", "key"⟩
        "abcd1234-eeee" false).2 =
      Except.error (ApiError.serverError "设置定时任务失败: StoreFailure") ∧
    (schedule_task ⟨[], [], []⟩ ⟨some 0, 10⟩ ⟨⟨some 0, 20⟩, "ping", "key"⟩
        "abcd1234-eeee" false).1 =
      ⟨[⟨"abcd1234", ⟨some 0, 20⟩, "key", "ping"⟩],
       [("abcd1234", [("job_id", "abcd1234"), ("schedule_time", "20+0"),
         ("content", "ping"), ("status", "scheduled")])],
       []⟩ :=
  ⟨rfl, rfl⟩

/-- C4 amended: only the DuplicateJob path is clean — when the trigger engine
rejects the id the whole submission fails with the state fully unchanged.
When the durable-store write fails after scheduling, the submission also
fails, but the pending entry and the index snapshot for the job remain while
the store is untouched: the engine and index are left inconsistent with the
store. -/
theorem C4_submit_failure_paths (st : SysState) (now : DT) (req : ScheduleRequest)
    (uuid : String)
    (htz : ¬ req.schedule_time.tzinfo = none)
    (hfut : now.instant < req.schedule_time.instant) :
    (st.pending.any (fun j => j.job_id = uuid.take 8) = true →
      ∀ storeOk, schedule_task st now req uuid storeOk =
        (st, Except.error (ApiError.serverError "设置定时任务失败: ConflictingIdError"))) ∧
    (st.pending.any (fun j => j.job_id = uuid.take 8) = false →
      (schedule_task st now req uuid false).2 =
        Except.error (ApiError.serverError "设置定时任务失败: StoreFailure") ∧
      (schedule_task st now req uuid false).1.pending =
        st.pending ++ [⟨uuid.take 8, req.schedule_time, req.bark_key, req.content⟩] ∧
      (schedule_task st now req uuid false).1.task_store =
        storeSet st.task_store (uuid.take 8)
          [("job_id", uuid.take 8), ("schedule_time", req.schedule_time.isoformat),
           ("content", req.content), ("status", "scheduled")] ∧
      (schedule_task st now req uuid false).1.db = st.db) := by
  constructor
  · intro hdup storeOk
    simp [schedule_task, htz, not_le.mpr hfut, hdup]
  · intro hnodup
    simp [schedule_task, htz, not_le.mpr hfut, hnodup]

/-- Witness for C4's amended theorem: the store-failure path at a concrete
valid request leaves the pending entry and snapshot with an empty store. -/
theorem C4_submit_failure_paths_witness :
    (schedule_task ⟨[], [], []⟩ ⟨some 0, 10⟩ ⟨⟨some 0, 20⟩, "ping", "key"⟩
        "abcd1234-eeee" false).2 =
      Except.error (ApiError.serverError "设置定时任务失败: StoreFailure") ∧
    (schedule_task ⟨[], [], []⟩ ⟨some 0, 10⟩ ⟨⟨some 0, 20⟩, "ping", "key"⟩
        "abcd1234-eeee" false).1.pending =
      [] ++ [⟨"abcd1234-eeee".take 8, ⟨some 0, 20⟩, "key", "ping"⟩] ∧
    (schedule_task ⟨[], [], []⟩ ⟨some 0, 10⟩ ⟨⟨some 0, 20⟩, "ping", "key"⟩
        "abcd1234-eeee" false).1.task_store =
      storeSet [] ("abcd1234-eeee".take 8)
        [("job_id", "abcd1234-eeee".take 8), ("schedule_time", (DT.mk (some 0) 20).isoformat),
         ("content", "ping"), ("status", "scheduled")] ∧
    (schedule_task ⟨[], [], []⟩ ⟨some 0, 10⟩ ⟨⟨some 0, 20⟩, "ping", "key"⟩
        "abcd1234-eeee" false).1.db = [] :=
  (C4_submit_failure_paths ⟨[], [], []⟩ ⟨some 0, 10⟩ ⟨⟨some 0, 20⟩, "ping", "key"⟩
    "abcd1234-eeee" (by decide) (by decide)).2 (by decide)

/-- C8 counterexample: two `put`s of the same `job_id` leave one record whose
`created_at` still holds the first write's timestamp (100), not the latest
write's (200) — the upsert's update clause omits `created_at` — so not every
field of the record reflects the latest write. -/
theorem C8_put_created_at_counterexample :
    save_task_to_db (save_task_to_db [] "j" "k1" ⟨some 0, 50⟩ "c1" "scheduled" 100)
        "j" "k2" ⟨some 0, 60⟩ "c2" "completed" 200 =
      [⟨"j", "k2", ⟨some 0, 60⟩, "c2", "completed", 100⟩] ∧
    (100 : Int) ≠ 200 :=
  ⟨rfl, by decide⟩

/-- C8 amended: `put` is an idempotent upsert keyed by `job_id`: after two
`put`s of the same id into a store satisfying the primary-key invariant,
exactly one record with that id exists, and its `bark_key`, `schedule_time`,
`content` and `status` reflect the latest write — but `created_at` retains
the value of the original insert, as the update clause omits it. -/
theorem C8_put_upsert_idempotent (db : List DBRow) (j k₁ k₂ c₁ c₂ s₁ s₂ : String)
    (t₁ t₂ : DT) (n₁ n₂ : Int)
    (hkey : db.countP (fun r => decide (r.job_id = j)) ≤ 1) :
    (save_task_to_db (save_task_to_db db j k₁ t₁ c₁ s₁ n₁) j k₂ t₂ c₂ s₂ n₂).countP
        (fun r => decide (r.job_id = j)) = 1 ∧
    ∃ r, (save_task_to_db (save_task_to_db db j k₁ t₁ c₁ s₁ n₁) j k₂ t₂ c₂ s₂ n₂).find?
        (fun x => x.job_id = j) = some r ∧
      r.bark_key = k₂ ∧ r.schedule_time = t₂ ∧ r.content = c₂ ∧ r.status = s₂ ∧
      (db.any (fun x => x.job_id = j) = false → r.created_at = n₁) := by
  constructor
  · rw [countP_save_self, if_pos (save_any_self db j k₁ t₁ c₁ s₁ n₁), countP_save_self]
    by_cases hany : db.any (fun r => r.job_id = j)
    · rw [if_pos hany]
      have hpos : 0 < db.countP (fun r => decide (r.job_id = j)) := by
        rw [List.countP_pos_iff]
        rw [List.any_eq_true] at hany
        obtain ⟨x, hx, hpx⟩ := hany
        exact ⟨x, hx, hpx⟩
      omega
    · rw [if_neg hany]
      have h0 : db.countP (fun r => decide (r.job_id = j)) = 0 := by
        rw [List.countP_eq_zero]
        intro a ha hpa
        exact hany (List.any_eq_true.mpr ⟨a, ha, hpa⟩)
      omega
  · have h1 := find?_save_self db j k₁ t₁ c₁ s₁ n₁
    have h2 := find?_save_self (save_task_to_db db j k₁ t₁ c₁ s₁ n₁) j k₂ t₂ c₂ s₂ n₂
    rw [h1] at h2
    cases hfd : db.find? (fun x => decide (x.job_id = j)) with
    | some r₀ =>
      rw [hfd] at h2
      refine ⟨_, h2, rfl, rfl, rfl, rfl, fun hf => ?_⟩
      have hmem := List.mem_of_find?_eq_some hfd
      have hpr := List.find?_some hfd
      have : db.any (fun x => x.job_id = j) = true := List.any_eq_true.mpr ⟨r₀, hmem, hpr⟩
      rw [hf] at this
      exact absurd this (by simp)
    | none =>
      rw [hfd] at h2
      exact ⟨_, h2, rfl, rfl, rfl, rfl, fun _ => rfl⟩

/-- Witness for C8's amended theorem: the double `put` into an empty store. -/
theorem C8_put_upsert_idempotent_witness :
    (save_task_to_db (save_task_to_db [] "j" "k1" ⟨some 0, 50⟩ "c1" "scheduled" 100)
        "j" "k2" ⟨some 0, 60⟩ "c2" "completed" 200).countP
      (fun r => decide (r.job_id = "j")) = 1 :=
  (C8_put_upsert_idempotent [] "j" "k1" "k2" "c1" "c2" "scheduled" "completed"
    ⟨some 0, 50⟩ ⟨some 0, 60⟩ 100 200 (by decide)).1

/-- C9 counterexample: the generator performs no collision check. With an
existing *completed* job under id `abcd1234` in index and store (not pending),
a submission whose uuid truncates to the same id succeeds and silently
overwrites the completed snapshot — nothing verified the fresh id against
existing records before registering the job. -/
theorem C9_job_id_collision_counterexample :
    storeLookup (SysState.mk []
        [("abcd1234", [("job_id", "abcd1234"), ("schedule_time", "5+0"),
          ("content", "old"), ("status", "completed")])]
        [⟨"abcd1234", "k1", ⟨some 0, 5⟩, "old", "completed", 1⟩]).task_store "abcd1234" =
      some [("job_id", "abcd1234"), ("schedule_time", "5+0"),
        ("content", "old"), ("status", "completed")] ∧
    (schedule_task (SysState.mk []
        [("abcd1234", [("job_id", "abcd1234"), ("schedule_time", "5+0"),
          ("content", "old"), ("status", "completed")])]
        [⟨"abcd1234", "k1", ⟨some 0, 5⟩, "old", "completed", 1⟩])
        ⟨some 0, 10⟩ ⟨⟨some 0, 20⟩, "new", "k2"⟩ "abcd1234-ffff" true).2 =
      Except.ok ⟨"abcd1234", ⟨some 0, 20⟩, "new", "scheduled"⟩ ∧
    storeLookup (schedule_task (SysState.mk []
        [("abcd1234", [("job_id", "abcd1234"), ("schedule_time", "5+0"),
          ("content", "old"), ("status", "completed")])]
        [⟨"abcd1234", "k1", ⟨some 0, 5⟩, "old", "completed", 1⟩])
        ⟨some 0, 10⟩ ⟨⟨some 0, 20⟩, "new", "k2"⟩ "abcd1234-ffff" true).1.task_store
        "abcd1234" =
      some [("job_id", "abcd1234"), ("schedule_time", "20+0"),
        ("content", "new"), ("status", "scheduled")] :=
  ⟨rfl, rfl, rfl⟩

/-- C9 amended: the generated `job_id` is the first 8 characters of the fresh
uuid (length 8 whenever the uuid has at least 8 characters), but it is *not*
collision-checked against existing records: the submission succeeds whenever
the id is not among the *pending* trigger-engine jobs, regardless of what the
index or store already holds under that id. -/
theorem C9_job_id_generation (st : SysState) (now : DT) (req : ScheduleRequest)
    (uuid : String)
    (htz : ¬ req.schedule_time.tzinfo = none)
    (hfut : now.instant < req.schedule_time.instant)
    (hlen : 8 ≤ uuid.length)
    (hpend : st.pending.any (fun j => j.job_id = uuid.take 8) = false) :
    (schedule_task st now req uuid true).2 =
      Except.ok ⟨uuid.take 8, req.schedule_time, req.content, "scheduled"⟩ ∧
    (uuid.take 8).length = 8 := by
  have hlen8 : (uuid.take 8).length = 8 := by
    rw [String.take_eq]
    show (uuid.1.take 8).length = 8
    rw [List.length_take]
    exact Nat.min_eq_left hlen
  refine ⟨?_, hlen8⟩
  simp [schedule_task, htz, not_le.mpr hfut, hpend]

/-- Witness for C9's amended theorem on an empty state and a 13-character
uuid. -/
theorem C9_job_id_generation_witness :
    (schedule_task ⟨[], [], []⟩ ⟨some 0, 10⟩ ⟨⟨some 0, 20⟩, "c", "k"⟩
        "abcd1234-ffff" true).2 =
      Except.ok ⟨"abcd1234-ffff".take 8, ⟨some 0, 20⟩, "c", "scheduled"⟩ ∧
    ("abcd1234-ffff".take 8).length = 8 :=
  C9_job_id_generation ⟨[], [], []⟩ ⟨some 0, 10⟩ ⟨⟨some 0, 20⟩, "c", "k"⟩
    "abcd1234-ffff" (by decide) (by decide) (by decide) (by decide)

theorem count_map_fst_filter_self (l : List (String × Int)) (j : String) :
    ((l.filter (fun p => p.1 ≠ j)).map Prod.fst).count j = 0 := by
  rw [List.count_eq_zero]
  intro hmem
  rw [List.mem_map] at hmem
  obtain ⟨p, hp, hfst⟩ := hmem
  rw [List.mem_filter] at hp
  exact (by simpa using hp.2 : p.1 ≠ j) hfst

theorem count_map_fst_filter_le (l : List (String × Int)) (j x : String) :
    ((l.filter (fun p => p.1 ≠ j)).map Prod.fst).count x ≤ (l.map Prod.fst).count x := by
  induction l with
  | nil => exact Nat.le_refl 0
  | cons p l ih =>
    rw [List.filter_cons]
    by_cases hp : p.1 ≠ j
    · rw [if_pos (by simpa using hp)]
      simp only [List.map_cons, List.count_cons]
      omega
    · rw [if_neg (by simpa using hp)]
      simp only [List.map_cons, List.count_cons]
      omega

theorem engine_count_invariant (e₁ e₂ : Engine) (hreach : EngineReaches e₁ e₂)
    (hinv : ∀ x, (e₁.pending.map Prod.fst).count x + e₁.fired.count x ≤ 1) :
    ∀ x, (e₂.pending.map Prod.fst).count x + e₂.fired.count x ≤ 1 := by
  induction hreach with
  | refl => exact hinv
  | @step a b hr hs ih =>
    cases hs with
    | fire now eng j t hmem hdue =>
      intro x
      show ((a.pending.filter (fun p => p.1 ≠ j)).map Prod.fst).count x +
        (j :: a.fired).count x ≤ 1
      by_cases hx : x = j
      · subst hx
        have hzero := count_map_fst_filter_self a.pending x
        have hmemf : x ∈ a.pending.map Prod.fst := List.mem_map_of_mem Prod.fst hmem
        have hfired : a.fired.count x = 0 := by
          have hle := ih x
          have hpos : 0 < (a.pending.map Prod.fst).count x := by
            rw [List.count_pos_iff]
            exact hmemf
          omega
        rw [hzero, List.count_cons_self, hfired]
      · have hle := count_map_fst_filter_le a.pending j x
        have hb := ih x
        rw [List.count_cons_of_ne hx]
        omega

/-- C2: at-most-once dispatch in the Trigger Engine model: starting from an
engine whose pending job ids are duplicate-free (guaranteed by DuplicateJob
rejection at schedule time) and whose invocation log is empty, any
interleaving of evaluation-cycle fire steps — each of which removes the
pending entry in the same atomic step that invokes the Dispatch Callback —
invokes the callback at most once for every job id. -/
theorem C2_at_most_once_dispatch (e₀ e : Engine)
    (hnd : (e₀.pending.map Prod.fst).Nodup) (hf : e₀.fired = [])
    (hreach : EngineReaches e₀ e) (j : String) :
    e.fired.count j ≤ 1 := by
  have hinv : ∀ x, (e₀.pending.map Prod.fst).count x + e₀.fired.count x ≤ 1 := by
    intro x
    rw [hf]
    simp only [List.count_nil, Nat.add_zero]
    exact List.nodup_iff_count_le_one.mp hnd x
  have h := engine_count_invariant e₀ e hreach hinv j
  omega

/-- Witness for C2: a one-job engine fires once; the invocation count for
that job in the resulting log is at most one. -/
theorem C2_at_most_once_dispatch_witness :
    (Engine.mk [] ["a"]).fired.count "a" ≤ 1 :=
  C2_at_most_once_dispatch ⟨[("a", 5)], []⟩ ⟨[], ["a"]⟩ (by decide) rfl
    (EngineReaches.step (EngineReaches.refl ⟨[("a", 5)], []⟩)
      (by
        have h := EngineStep.fire 5 ⟨[("a", 5)], []⟩ "a" 5 (by decide) (by decide)
        simpa using h))
    "a"

end Pusher
